import Mathlib

/-!
Verification of the Telemetry Simulation & Threshold Alerting Engine and the
Irrigation Duty-Cycle Controller of the SMART_app repository
(src/backend/app/sensors.py, src/backend/app/models.py), as a shallow
embedding in Lean 4.

Modelling conventions:
* Python floats are modelled as rationals (ℚ); Python ints as ℤ.
* `datetime` timestamps are modelled as integers counting seconds
  (24 hours = 86400 s, 7 days = 604800 s).
* Python `round(x, d)` (round-half-to-even) is modelled by `pyRound2`/`roundTo`.
* The gaussian noise draws (`random.gauss`) and the transcendental diurnal
  terms (`math.sin(...)`) are modelled as arbitrary rational inputs supplied
  to the generator: the clamping invariants hold for every value they could
  take, which subsumes the true sine/noise values.
* `uuid.uuid4()` and `datetime.utcnow()` inside `_check_thresholds` are
  modelled as an explicit id source (`ids : ℕ → String`, the n-th emitted
  alert receives `ids n`) and an explicit evaluation time.
-/

namespace SmartApp

/-! ### Basic helpers -/

/-- Python `max(lo, min(hi, x))`, the clamp pattern used throughout
`_generate_realistic_reading`. -/
def clamp (lo hi x : ℚ) : ℚ := max lo (min hi x)

/-- Python `round(x)` to an integer: round half to even (banker's rounding). -/
def pyRound2 (x : ℚ) : ℤ :=
  let f := ⌊x⌋
  let frac := x - f
  if frac < 1/2 then f
  else if 1/2 < frac then f + 1
  else if f % 2 = 0 then f else f + 1

/-- Python `round(x, d)`: round to `d` decimal places, half to even. -/
def roundTo (d : ℕ) (x : ℚ) : ℚ := (pyRound2 (x * 10 ^ d) : ℚ) / 10 ^ d

lemma floor_le_pyRound2 (x : ℚ) : ⌊x⌋ ≤ pyRound2 x := by
  unfold pyRound2
  dsimp only
  split
  · exact le_rfl
  · split
    · omega
    · split
      · exact le_rfl
      · omega

lemma pyRound2_le_ceil (x : ℚ) : pyRound2 x ≤ ⌈x⌉ := by
  unfold pyRound2
  dsimp only
  have hfc : ⌊x⌋ ≤ ⌈x⌉ := Int.floor_le_ceil x
  split
  · exact hfc
  · rename_i h1
    push_neg at h1
    have hlt : (⌊x⌋ : ℚ) < x := by
      have h0 : (0:ℚ) < 1/2 := by norm_num
      linarith [h1]
    have hc : ⌊x⌋ < ⌈x⌉ := Int.lt_ceil.mpr hlt
    split
    · omega
    · split
      · exact hfc
      · omega

lemma pyRound2_bounds (L H : ℤ) (x : ℚ) (h1 : (L : ℚ) ≤ x) (h2 : x ≤ (H : ℚ)) :
    L ≤ pyRound2 x ∧ pyRound2 x ≤ H :=
  ⟨le_trans (Int.le_floor.mpr h1) (floor_le_pyRound2 x),
   le_trans (pyRound2_le_ceil x) (Int.ceil_le.mpr h2)⟩

lemma roundTo_bounds (d : ℕ) (L H : ℤ) (x : ℚ)
    (h1 : (L : ℚ) / 10 ^ d ≤ x) (h2 : x ≤ (H : ℚ) / 10 ^ d) :
    (L : ℚ) / 10 ^ d ≤ roundTo d x ∧ roundTo d x ≤ (H : ℚ) / 10 ^ d := by
  have hp : (0 : ℚ) < 10 ^ d := by positivity
  have h1m : (L : ℚ) ≤ x * 10 ^ d := by
    rw [div_le_iff₀ hp] at h1; exact h1
  have h2m : x * 10 ^ d ≤ (H : ℚ) := by
    rw [le_div_iff₀ hp] at h2; exact h2
  obtain ⟨hl, hh⟩ := pyRound2_bounds L H (x * 10 ^ d) h1m h2m
  constructor
  · rw [roundTo]
    gcongr
  · rw [roundTo]
    gcongr

lemma clamp_bounds (lo hi x : ℚ) (h : lo ≤ hi) :
    lo ≤ clamp lo hi x ∧ clamp lo hi x ≤ hi :=
  ⟨le_max_left _ _, max_le h (min_le_left _ _)⟩

lemma roundTo_clamp_bounds (d : ℕ) (L H : ℤ) (lo hi x : ℚ)
    (hlo : lo = (L : ℚ) / 10 ^ d) (hhi : hi = (H : ℚ) / 10 ^ d) (hlh : lo ≤ hi) :
    lo ≤ roundTo d (clamp lo hi x) ∧ roundTo d (clamp lo hi x) ≤ hi := by
  obtain ⟨h1, h2⟩ := clamp_bounds lo hi x hlh
  subst hlo; subst hhi
  exact roundTo_bounds d L H _ h1 h2

/-! ### Irrigation controller (models.py `IrrigationCommand`/`IrrigationStatus`,
sensors.py `execute_irrigation` and `_irrigation_management_loop`) -/

/-- models.py `IrrigationCommand`: `activate`, optional `duration_minutes`
(validated 1..180 at the pydantic boundary), optional `zone_id`. -/
structure IrrigationCommand where
  activate : Bool
  duration_minutes : Option ℤ := none
  zone_id : Option String := none
deriving DecidableEq, Repr

/-- models.py `IrrigationStatus` with its field defaults. -/
structure IrrigationStatus where
  is_active : Bool
  current_zone : Option String := none
  start_time : Option ℤ := none
  duration_minutes : Option ℤ := none
  remaining_minutes : Option ℤ := none
  last_activation : Option ℤ := none
  total_runtime_today : ℤ := 0
  water_usage_liters : Option ℚ := none
deriving DecidableEq, Repr

/-- sensors.py line 26: `IrrigationStatus(is_active=False)`. -/
def initStatus : IrrigationStatus := { is_active := false }

def mainZone : String := "main"

/-- Python `command.zone_id or "main"`: `or` treats `None` and the empty
string as falsy. -/
def pyOrZone (z : Option String) : String :=
  match z with
  | none => mainZone
  | some s => if s = "" then mainZone else s

/-- sensors.py `execute_irrigation` (lines 291-306). `now` is
`datetime.utcnow()`; only the activate branch reads it. -/
def executeIrrigation (now : ℤ) (cmd : IrrigationCommand) (s : IrrigationStatus) :
    IrrigationStatus :=
  if cmd.activate then
    { s with
      is_active := true
      start_time := some now
      duration_minutes := cmd.duration_minutes
      remaining_minutes := cmd.duration_minutes
      current_zone := some (pyOrZone cmd.zone_id) }
  else
    { s with
      is_active := false
      last_activation := s.start_time
      start_time := none
      duration_minutes := none
      remaining_minutes := none }

/-- The command `IrrigationCommand(activate=False)` as built inside the
irrigation loop. -/
def deactivateCmd : IrrigationCommand := { activate := false }

/-- One iteration of the body of `_irrigation_management_loop`
(sensors.py lines 326-332): `if is_active and remaining_minutes:` (Python
truthiness: `None` and `0` are falsy), decrement, auto-stop at `<= 0`. -/
def irrigationTick (now : ℤ) (s : IrrigationStatus) : IrrigationStatus :=
  match s.remaining_minutes with
  | none => s
  | some m =>
    if s.is_active && (m != 0) then
      let s1 := { s with remaining_minutes := some (m - 1) }
      if m - 1 ≤ 0 then executeIrrigation now deactivateCmd s1 else s1
    else s

/-- Iterate the irrigation loop body `n` times (the deactivate branch never
reads the clock, so the tick time is irrelevant; `0` is used). -/
def tickN : ℕ → IrrigationStatus → IrrigationStatus
  | 0, s => s
  | n + 1, s => tickN n (irrigationTick 0 s)

/-! ### Alert model (models.py `AlertSeverity`, `AlertData`,
`ThresholdSettings`) -/

/-- models.py `AlertSeverity`. -/
inductive AlertSeverity where
  | low
  | moderate
  | high
  | critical
deriving DecidableEq, Repr

/-- models.py `AlertData`. `sensor_type` carries the channel name (the
Python `SensorType` enum is a `str` enum whose values are the names). -/
structure AlertData where
  id : String
  type : String
  severity : AlertSeverity
  title : String
  message : String
  timestamp : ℤ
  sensor_type : Option String := none
  sensor_value : Option ℚ := none
  threshold_min : Option ℚ := none
  threshold_max : Option ℚ := none
  resolved : Bool := false
  resolved_at : Option ℤ := none
deriving DecidableEq, Repr

/-- One channel's `{"min": ..., "max": ...}` threshold dictionary. -/
structure Threshold where
  min : ℚ
  max : ℚ
deriving DecidableEq, Repr

/-- models.py `ThresholdSettings` with its defaults. -/
structure ThresholdSettings where
  soil_moisture : Threshold := { min := 30, max := 70 }
  soil_temperature : Threshold := { min := 15, max := 35 }
  soil_ph : Threshold := { min := 6, max := 7.5 }
  air_temperature : Threshold := { min := 10, max := 40 }
  humidity : Threshold := { min := 40, max := 80 }
  npk_nitrogen : Threshold := { min := 100, max := 150 }
  npk_phosphorus : Threshold := { min := 30, max := 60 }
  npk_potassium : Threshold := { min := 150, max := 200 }
deriving DecidableEq, Repr

def defaultThresholds : ThresholdSettings := {}

/-- models.py `NPKReading` (values are clamped by the generator but not
rounded). -/
structure NPKReading where
  nitrogen : ℚ
  phosphorus : ℚ
  potassium : ℚ
  timestamp : ℤ
deriving DecidableEq, Repr

/-- models.py `SensorReading`. -/
structure SensorReading where
  timestamp : ℤ
  soil_moisture : ℚ
  soil_temperature : ℚ
  soil_ph : ℚ
  soil_conductivity : ℚ
  air_temperature : ℚ
  humidity : ℚ
  atmospheric_pressure : ℚ
  npk : NPKReading
deriving DecidableEq, Repr

/-! ### Threshold evaluator (sensors.py `_check_thresholds`, lines 230-281) -/

def underStr : String := "_"

def spaceStr : String := " "

/-- Capitalise one word, lowercasing the rest (one alphabetic run of
Python `str.title()`). -/
def capWord (w : String) : String :=
  match w.data with
  | [] => w
  | c :: rest => String.mk (c.toUpper :: rest.map Char.toLower)

/-- Python `str.title()` on space-separated words. -/
def titleCase (s : String) : String :=
  String.intercalate spaceStr ((s.splitOn spaceStr).map capWord)

/-- Python `sensor_name.replace('_', ' ').title()`. -/
def displayName (name : String) : String :=
  titleCase (name.replace underStr spaceStr)

/-- Rendering of a numeric value inside an alert message. Python formats the
float with `str`; the exact decimal formatting is abstracted as the standard
rendering of the rational. -/
def ratRepr (q : ℚ) : String := toString q

def lowSuffix : String := "_low"

def highSuffix : String := "_high"

def lowTitleStart : String := "Low "

def highTitleStart : String := "High "

def lowMsgMid : String := " is below minimum threshold: "

def highMsgMid : String := " is above maximum threshold: "

def ltStr : String := " < "

def gtStr : String := " > "

/-- The body of the `for sensor_name, value, threshold in checks:` loop in
`_check_thresholds` (lines 249-277) for one channel: below-minimum and
above-maximum branches with the `0.8` / `1.2` severity escalation factors.
`now` is the `datetime.utcnow()` call and `idStr` the `uuid.uuid4()` draw
used when an alert is created. -/
def checkOne (name : String) (value : ℚ) (th : Threshold) (now : ℤ)
    (idStr : String) : Option AlertData :=
  if value < th.min then
    some { id := idStr
           type := name ++ lowSuffix
           severity := if value < th.min * 0.8 then AlertSeverity.high
                       else AlertSeverity.moderate
           title := lowTitleStart ++ displayName name
           message := displayName name ++ lowMsgMid ++ ratRepr value ++
                      ltStr ++ ratRepr th.min
           timestamp := now
           sensor_type := some name
           sensor_value := some value
           threshold_min := some th.min
           threshold_max := some th.max }
  else if value > th.max then
    some { id := idStr
           type := name ++ highSuffix
           severity := if value > th.max * 1.2 then AlertSeverity.high
                       else AlertSeverity.moderate
           title := highTitleStart ++ displayName name
           message := displayName name ++ highMsgMid ++ ratRepr value ++
                      gtStr ++ ratRepr th.max
           timestamp := now
           sensor_type := some name
           sensor_value := some value
           threshold_min := some th.min
           threshold_max := some th.max }
  else none

def nmSoilMoisture : String := "soil_moisture"

def nmSoilTemperature : String := "soil_temperature"

def nmSoilPh : String := "soil_ph"

def nmAirTemperature : String := "air_temperature"

def nmHumidity : String := "humidity"

def nmNitrogen : String := "nitrogen"

def nmPhosphorus : String := "phosphorus"

def nmPotassium : String := "potassium"

/-- The `checks` list of `_check_thresholds` (lines 238-247): eight
(channel, value, threshold) triples; conductivity and pressure are not
checked. -/
def checksList (r : SensorReading) (t : ThresholdSettings) :
    List (String × ℚ × Threshold) :=
  [ (nmSoilMoisture, r.soil_moisture, t.soil_moisture),
    (nmSoilTemperature, r.soil_temperature, t.soil_temperature),
    (nmSoilPh, r.soil_ph, t.soil_ph),
    (nmAirTemperature, r.air_temperature, t.air_temperature),
    (nmHumidity, r.humidity, t.humidity),
    (nmNitrogen, r.npk.nitrogen, t.npk_nitrogen),
    (nmPhosphorus, r.npk.phosphorus, t.npk_phosphorus),
    (nmPotassium, r.npk.potassium, t.npk_potassium) ]

/-- Run the check loop over the remaining triples; `i` counts the alerts
emitted so far, so the n-th created alert receives the n-th id draw. -/
def runChecks (now : ℤ) (ids : ℕ → String) :
    List (String × ℚ × Threshold) → ℕ → List AlertData
  | [], _ => []
  | c :: rest, i =>
    match checkOne c.1 c.2.1 c.2.2 now (ids i) with
    | some a => a :: runChecks now ids rest (i + 1)
    | none => runChecks now ids rest i

/-- sensors.py `_check_thresholds` evaluation step: the `current_alerts`
produced from one reading against the thresholds. -/
def checkThresholds (r : SensorReading) (t : ThresholdSettings) (now : ℤ)
    (ids : ℕ → String) : List AlertData :=
  runChecks now ids (checksList r t) 0

/-! ### Alert ledger (sensors.py lines 279-285 and `_alert_monitoring_loop`
lines 308-320) -/

/-- The retention filter pattern
`[alert for alert in self.alerts if alert.timestamp > cutoff_time]`. -/
def sweepAlerts (cutoff : ℤ) (alerts : List AlertData) : List AlertData :=
  alerts.filter (fun a => cutoff < a.timestamp)

/-- Seconds in 24 hours. -/
def day : ℤ := 86400

/-- Seconds in 7 days. -/
def week : ℤ := 604800

/-- The ledger update at the end of `_check_thresholds` (lines 279-281):
filter the existing alerts with `cutoff = now - timedelta(hours=24)` and
append the freshly generated ones. -/
def updateAlertLedger (now : ℤ) (alerts currentAlerts : List AlertData) :
    List AlertData :=
  sweepAlerts (now - day) alerts ++ currentAlerts

/-- One iteration of the body of `_alert_monitoring_loop` (lines 312-314),
the task that sleeps 300 seconds between iterations: it filters with
`cutoff = now - timedelta(days=7)`. -/
def alertMonitoringSweep (now : ℤ) (alerts : List AlertData) :
    List AlertData :=
  sweepAlerts (now - week) alerts

/-- sensors.py `get_active_alerts` (lines 283-285):
alerts with `resolved == False`. -/
def getActiveAlerts (alerts : List AlertData) : List AlertData :=
  alerts.filter (fun a => !a.resolved)

/-! ### Waveform generator (sensors.py `_generate_realistic_reading`,
lines 86-176) -/

/-- One rational per channel, mirroring the dictionaries keyed by the ten
channel names (`base_values`, `trends`, and the per-channel noise and
drift-noise draws). -/
structure ChannelVec where
  soil_moisture : ℚ
  soil_temperature : ℚ
  soil_ph : ℚ
  soil_conductivity : ℚ
  air_temperature : ℚ
  humidity : ℚ
  atmospheric_pressure : ℚ
  nitrogen : ℚ
  phosphorus : ℚ
  potassium : ℚ
deriving DecidableEq, Repr

/-- sensors.py lines 31-42: `self.base_values`. -/
def baseValues : ChannelVec :=
  { soil_moisture := 50
    soil_temperature := 24
    soil_ph := 6.8
    soil_conductivity := 850
    air_temperature := 28
    humidity := 65
    atmospheric_pressure := 1013.2
    nitrogen := 120
    phosphorus := 45
    potassium := 180 }

/-- sensors.py line 45: all trends start at `0.0`. -/
def initTrends : ChannelVec :=
  { soil_moisture := 0
    soil_temperature := 0
    soil_ph := 0
    soil_conductivity := 0
    air_temperature := 0
    humidity := 0
    atmospheric_pressure := 0
    nitrogen := 0
    phosphorus := 0
    potassium := 0 }

/-- sensors.py lines 173-176: advance every trend by its gaussian
random-walk step (`dn`) and re-clamp to `max(-5, min(5, ...))`. -/
def updateTrends (t dn : ChannelVec) : ChannelVec :=
  { soil_moisture := clamp (-5) 5 (t.soil_moisture + dn.soil_moisture)
    soil_temperature := clamp (-5) 5 (t.soil_temperature + dn.soil_temperature)
    soil_ph := clamp (-5) 5 (t.soil_ph + dn.soil_ph)
    soil_conductivity := clamp (-5) 5 (t.soil_conductivity + dn.soil_conductivity)
    air_temperature := clamp (-5) 5 (t.air_temperature + dn.air_temperature)
    humidity := clamp (-5) 5 (t.humidity + dn.humidity)
    atmospheric_pressure := clamp (-5) 5 (t.atmospheric_pressure + dn.atmospheric_pressure)
    nitrogen := clamp (-5) 5 (t.nitrogen + dn.nitrogen)
    phosphorus := clamp (-5) 5 (t.phosphorus + dn.phosphorus)
    potassium := clamp (-5) 5 (t.potassium + dn.potassium) }

/-- sensors.py `_generate_realistic_reading` (lines 86-176).

`sinDiurnal` stands for `math.sin((day_progress - 0.25) * 2 * math.pi)` and
`sinDay` for `math.sin(day_progress * math.pi)`: the transcendental sine
values are supplied as inputs (they are reals in `[-1, 1]`, but every claim
proved below holds for arbitrary rational values, which subsumes them).
`noise` holds the per-channel `random.gauss` draws for the reading
(channel-specific standard deviations; arbitrary here). This is the value
part (lines 88-171); the trend-update side effect (lines 173-176) is
`updateTrends`, and `generateReading` combines both. -/
def generatedReading (now : ℤ) (sinDiurnal sinDay : ℚ)
    (noise trends : ChannelVec) : SensorReading :=
  let temp_variation := sinDiurnal * 5
  let humidity_variation := -temp_variation * 0.8
  let moisture_variation := -(abs sinDay) * 10
  { timestamp := now
    soil_moisture := roundTo 1 (clamp 10 90
      (baseValues.soil_moisture + moisture_variation +
        noise.soil_moisture + trends.soil_moisture))
    soil_temperature := roundTo 1 (clamp 5 45
      (baseValues.soil_temperature + temp_variation * 0.3 +
        noise.soil_temperature + trends.soil_temperature))
    soil_ph := roundTo 2 (clamp 4 9
      (baseValues.soil_ph + noise.soil_ph + trends.soil_ph))
    soil_conductivity := roundTo 0 (clamp 100 3000
      (baseValues.soil_conductivity + noise.soil_conductivity +
        trends.soil_conductivity))
    air_temperature := roundTo 1 (clamp (-10) 50
      (baseValues.air_temperature + temp_variation +
        noise.air_temperature + trends.air_temperature))
    humidity := roundTo 1 (clamp 20 95
      (baseValues.humidity + humidity_variation +
        noise.humidity + trends.humidity))
    atmospheric_pressure := roundTo 1 (clamp 980 1040
      (baseValues.atmospheric_pressure + noise.atmospheric_pressure +
        trends.atmospheric_pressure))
    npk :=
      { nitrogen := clamp 50 250
          (baseValues.nitrogen + noise.nitrogen + trends.nitrogen)
        phosphorus := clamp 20 80
          (baseValues.phosphorus + noise.phosphorus + trends.phosphorus)
        potassium := clamp 100 300
          (baseValues.potassium + noise.potassium + trends.potassium)
        timestamp := now } }

/-- The whole of `_generate_realistic_reading`: produce the reading and
advance the drift state (`driftNoise` holds the ten `random.gauss(0, 0.01)`
draws of lines 173-176). -/
def generateReading (now : ℤ) (sinDiurnal sinDay : ℚ)
    (noise driftNoise trends : ChannelVec) : SensorReading × ChannelVec :=
  (generatedReading now sinDiurnal sinDay noise trends,
   updateTrends trends driftNoise)

/-! ### Concrete scenario states and inputs -/

/-- A full in-range reading except `soil_moisture = 25` (the other channels
sit at their base values, inside the default thresholds). -/
def reading25 : SensorReading :=
  { timestamp := 0
    soil_moisture := 25
    soil_temperature := 24
    soil_ph := 6.8
    soil_conductivity := 850
    air_temperature := 28
    humidity := 65
    atmospheric_pressure := 1013.2
    npk := { nitrogen := 120, phosphorus := 45, potassium := 180,
             timestamp := 0 } }

/-- The same reading with `soil_moisture = 20`. -/
def reading20 : SensorReading :=
  { timestamp := 0
    soil_moisture := 20
    soil_temperature := 24
    soil_ph := 6.8
    soil_conductivity := 850
    air_temperature := 28
    humidity := 65
    atmospheric_pressure := 1013.2
    npk := { nitrogen := 120, phosphorus := 45, potassium := 180,
             timestamp := 0 } }

/-- One possible sequence of `uuid.uuid4()` draws. -/
def idsA : ℕ → String := fun _ => underStr

/-- A different possible sequence of `uuid.uuid4()` draws. -/
def idsB : ℕ → String := fun _ => spaceStr

/-- The alert fields that `_check_thresholds` derives purely from
(channel, value, threshold), i.e. everything except the freshly drawn
`id` and the `utcnow()` `timestamp`. -/
def coreOf (a : AlertData) :
    String × AlertSeverity × String × String × Option String × Option ℚ ×
      Option ℚ × Option ℚ × Bool × Option ℤ :=
  (a.type, a.severity, a.title, a.message, a.sensor_type, a.sensor_value,
   a.threshold_min, a.threshold_max, a.resolved, a.resolved_at)

/-- An unresolved alert created 25 hours before time 0. -/
def alert25h : AlertData :=
  { id := underStr, type := lowSuffix, severity := AlertSeverity.moderate,
    title := underStr, message := underStr, timestamp := -90000 }

/-- An unresolved alert created 23 hours before time 0. -/
def alert23h : AlertData :=
  { id := underStr, type := lowSuffix, severity := AlertSeverity.moderate,
    title := underStr, message := underStr, timestamp := -82800 }

/-- An unresolved alert created exactly 24 hours before time 0. -/
def alertEq24h : AlertData :=
  { id := underStr, type := lowSuffix, severity := AlertSeverity.moderate,
    title := underStr, message := underStr, timestamp := -86400 }

/-- The state after `execute_irrigation` with `activate=True, duration=5`
issued at time 0 on the startup state. -/
def act5 : IrrigationStatus :=
  executeIrrigation 0 { activate := true, duration_minutes := some 5 }
    initStatus

/-- The state reached by `activate(10)` at time 100, three irrigation-loop
iterations, then `activate(20)` at time 200. -/
def reactivated : IrrigationStatus :=
  executeIrrigation 200 { activate := true, duration_minutes := some 20 }
    (tickN 3
      (executeIrrigation 100 { activate := true, duration_minutes := some 10 }
        initStatus))

/-- The state after an activate command that carries no duration. -/
def activateNoDuration (now : ℤ) (z : Option String) (s : IrrigationStatus) :
    IrrigationStatus :=
  executeIrrigation now
    { activate := true, duration_minutes := none, zone_id := z } s

/-! ### Helper lemmas -/

/-- The presence, channel, direction, severity, title, message and value
fields of a `checkOne` alert do not depend on the drawn id or the
evaluation time. -/
lemma runChecks_map_core (l : List (String × ℚ × Threshold)) :
    ∀ (now1 : ℤ) (ids1 : ℕ → String) (i1 : ℕ) (now2 : ℤ)
      (ids2 : ℕ → String) (i2 : ℕ),
      (runChecks now1 ids1 l i1).map coreOf =
        (runChecks now2 ids2 l i2).map coreOf := by
  induction l with
  | nil => intro _ _ _ _ _ _; rfl
  | cons c rest ih =>
    intro now1 ids1 i1 now2 ids2 i2
    simp only [runChecks, checkOne]
    split_ifs
    all_goals
      first
        | exact ih now1 ids1 i1 now2 ids2 i2
        | exact congrArg₂ List.cons rfl
            (ih now1 ids1 (i1 + 1) now2 ids2 (i2 + 1))

/-! ### Claim theorems -/

/-- C1: the reading produced by a call to `_generate_realistic_reading`
stores, for every channel, a value within that channel's hard clamp range
(soil_moisture in [10,90], soil_temperature in [5,45], soil_ph in [4,9],
soil_conductivity in [100,3000], air_temperature in [-10,50], humidity in
[20,95], atmospheric_pressure in [980,1040], nitrogen in [50,250],
phosphorus in [20,80], potassium in [100,300]), for arbitrary noise samples,
arbitrary diurnal sine values and arbitrary current drift state, including
after the final rounding step. -/
theorem c1_reading_within_clamp_range (now : ℤ) (sinDiurnal sinDay : ℚ)
    (noise driftNoise trends : ChannelVec) :
    (generateReading now sinDiurnal sinDay noise driftNoise trends).1 =
      generatedReading now sinDiurnal sinDay noise trends ∧
    ((10 ≤ (generatedReading now sinDiurnal sinDay noise trends).soil_moisture ∧
      (generatedReading now sinDiurnal sinDay noise trends).soil_moisture ≤ 90) ∧
     (5 ≤ (generatedReading now sinDiurnal sinDay noise trends).soil_temperature ∧
      (generatedReading now sinDiurnal sinDay noise trends).soil_temperature ≤ 45) ∧
     (4 ≤ (generatedReading now sinDiurnal sinDay noise trends).soil_ph ∧
      (generatedReading now sinDiurnal sinDay noise trends).soil_ph ≤ 9) ∧
     (100 ≤ (generatedReading now sinDiurnal sinDay noise trends).soil_conductivity ∧
      (generatedReading now sinDiurnal sinDay noise trends).soil_conductivity ≤ 3000) ∧
     (-10 ≤ (generatedReading now sinDiurnal sinDay noise trends).air_temperature ∧
      (generatedReading now sinDiurnal sinDay noise trends).air_temperature ≤ 50) ∧
     (20 ≤ (generatedReading now sinDiurnal sinDay noise trends).humidity ∧
      (generatedReading now sinDiurnal sinDay noise trends).humidity ≤ 95) ∧
     (980 ≤ (generatedReading now sinDiurnal sinDay noise trends).atmospheric_pressure ∧
      (generatedReading now sinDiurnal sinDay noise trends).atmospheric_pressure ≤ 1040) ∧
     (50 ≤ (generatedReading now sinDiurnal sinDay noise trends).npk.nitrogen ∧
      (generatedReading now sinDiurnal sinDay noise trends).npk.nitrogen ≤ 250) ∧
     (20 ≤ (generatedReading now sinDiurnal sinDay noise trends).npk.phosphorus ∧
      (generatedReading now sinDiurnal sinDay noise trends).npk.phosphorus ≤ 80) ∧
     (100 ≤ (generatedReading now sinDiurnal sinDay noise trends).npk.potassium ∧
      (generatedReading now sinDiurnal sinDay noise trends).npk.potassium ≤ 300)) := by
  refine ⟨rfl, ?_, ?_, ?_, ?_, ?_, ?_, ?_, ?_, ?_, ?_⟩ <;>
    simp only [generatedReading]
  · exact roundTo_clamp_bounds 1 100 900 10 90 _ (by norm_num) (by norm_num)
      (by norm_num)
  · exact roundTo_clamp_bounds 1 50 450 5 45 _ (by norm_num) (by norm_num)
      (by norm_num)
  · exact roundTo_clamp_bounds 2 400 900 4 9 _ (by norm_num) (by norm_num)
      (by norm_num)
  · exact roundTo_clamp_bounds 0 100 3000 100 3000 _ (by norm_num)
      (by norm_num) (by norm_num)
  · exact roundTo_clamp_bounds 1 (-100) 500 (-10) 50 _ (by norm_num)
      (by norm_num) (by norm_num)
  · exact roundTo_clamp_bounds 1 200 950 20 95 _ (by norm_num) (by norm_num)
      (by norm_num)
  · exact roundTo_clamp_bounds 1 9800 10400 980 1040 _ (by norm_num)
      (by norm_num) (by norm_num)
  · exact clamp_bounds 50 250 _ (by norm_num)
  · exact clamp_bounds 20 80 _ (by norm_num)
  · exact clamp_bounds 100 300 _ (by norm_num)

/-- C8: after every generation tick, every channel's drift (trend) value
lies in [-5, 5]: the tick advances each drift by one random-walk step and
re-clamps it, for arbitrary noise samples and from any starting drift
state. -/
theorem c8_drift_bounded (now : ℤ) (sinDiurnal sinDay : ℚ)
    (noise driftNoise trends : ChannelVec) :
    (generateReading now sinDiurnal sinDay noise driftNoise trends).2 =
      updateTrends trends driftNoise ∧
    ((-5 ≤ (updateTrends trends driftNoise).soil_moisture ∧
      (updateTrends trends driftNoise).soil_moisture ≤ 5) ∧
     (-5 ≤ (updateTrends trends driftNoise).soil_temperature ∧
      (updateTrends trends driftNoise).soil_temperature ≤ 5) ∧
     (-5 ≤ (updateTrends trends driftNoise).soil_ph ∧
      (updateTrends trends driftNoise).soil_ph ≤ 5) ∧
     (-5 ≤ (updateTrends trends driftNoise).soil_conductivity ∧
      (updateTrends trends driftNoise).soil_conductivity ≤ 5) ∧
     (-5 ≤ (updateTrends trends driftNoise).air_temperature ∧
      (updateTrends trends driftNoise).air_temperature ≤ 5) ∧
     (-5 ≤ (updateTrends trends driftNoise).humidity ∧
      (updateTrends trends driftNoise).humidity ≤ 5) ∧
     (-5 ≤ (updateTrends trends driftNoise).atmospheric_pressure ∧
      (updateTrends trends driftNoise).atmospheric_pressure ≤ 5) ∧
     (-5 ≤ (updateTrends trends driftNoise).nitrogen ∧
      (updateTrends trends driftNoise).nitrogen ≤ 5) ∧
     (-5 ≤ (updateTrends trends driftNoise).phosphorus ∧
      (updateTrends trends driftNoise).phosphorus ≤ 5) ∧
     (-5 ≤ (updateTrends trends driftNoise).potassium ∧
      (updateTrends trends driftNoise).potassium ≤ 5)) := by
  refine ⟨rfl, ?_, ?_, ?_, ?_, ?_, ?_, ?_, ?_, ?_, ?_⟩ <;>
    simp only [updateTrends] <;>
    exact clamp_bounds (-5) 5 _ (by norm_num)

/-- C3: from the inactive startup state, `activate(duration=5)` followed by
exactly 5 irrigation-loop iterations leaves the status inactive with
`start_time`, `duration_minutes` and `remaining_minutes` cleared to `None`,
while 4 iterations leave it active with `remaining_minutes == 1`; in
general, a tick in an active state with a positive numeric countdown
decrements `remaining_minutes` by 1 and performs the deactivate transition
automatically when the result is ≤ 0, and a tick in an inactive state
changes nothing. -/
theorem c3_countdown_and_auto_stop :
    tickN 5 act5 = { is_active := false, current_zone := some mainZone,
                     last_activation := some 0 } ∧
    ((tickN 4 act5).is_active = true ∧
     (tickN 4 act5).remaining_minutes = some 1) ∧
    (∀ (now : ℤ) (s : IrrigationStatus) (m : ℤ), s.is_active = true →
      s.remaining_minutes = some m → 0 < m →
      irrigationTick now s =
        (if 1 < m then { s with remaining_minutes := some (m - 1) }
         else { s with is_active := false, last_activation := s.start_time,
                       start_time := none, duration_minutes := none,
                       remaining_minutes := none })) ∧
    (∀ (now : ℤ) (s : IrrigationStatus), s.is_active = false →
      irrigationTick now s = s) := by
  refine ⟨by rfl, ⟨by rfl, by rfl⟩, ?_, ?_⟩
  · intro now s m hact hrem hpos
    simp only [irrigationTick, hrem, hact, Bool.true_and]
    have hne : (m != 0) = true := by simp; omega
    rw [hne, if_pos rfl]
    by_cases hm : m - 1 ≤ 0
    · rw [if_pos hm, if_neg (by omega)]
      simp [executeIrrigation, deactivateCmd]
    · rw [if_neg hm, if_pos (by omega)]
  · intro now s hinact
    simp only [irrigationTick]
    cases s.remaining_minutes with
    | none => rfl
    | some m => simp [hinact]

/-- Witness for C3 at concrete states: a tick at remaining 3 decrements to
2, a tick at remaining 1 auto-stops, and a tick on the startup state is a
no-op. -/
theorem c3_countdown_and_auto_stop_witness :
    irrigationTick 7 { is_active := true, start_time := some 0,
                       duration_minutes := some 5,
                       remaining_minutes := some 3 } =
      { is_active := true, start_time := some 0, duration_minutes := some 5,
        remaining_minutes := some 2 } ∧
    irrigationTick 7 { is_active := true, start_time := some 0,
                       duration_minutes := some 5,
                       remaining_minutes := some 1 } =
      { is_active := false, last_activation := some 0 } ∧
    irrigationTick 7 initStatus = initStatus := by
  refine ⟨?_, ?_, ?_⟩
  · have h := c3_countdown_and_auto_stop.2.2.1 7
      { is_active := true, start_time := some 0, duration_minutes := some 5,
        remaining_minutes := some 3 } 3 rfl rfl (by norm_num)
    simpa using h
  · have h := c3_countdown_and_auto_stop.2.2.1 7
      { is_active := true, start_time := some 0, duration_minutes := some 5,
        remaining_minutes := some 1 } 1 rfl rfl (by norm_num)
    simpa using h
  · exact c3_countdown_and_auto_stop.2.2.2 7 initStatus rfl

/-- C7: an activate command issued while irrigation is already active
overwrites the running command (no queuing, no rejection); concretely,
`activate(10)`, three ticks, then `activate(20)` gives an active status
with `remaining_minutes == 20`, `duration_minutes == 20` and `start_time`
equal to the time of the second command. -/
theorem c7_reactivation_overwrites :
    (∀ (now d : ℤ) (z : Option String) (s : IrrigationStatus),
      s.is_active = true →
      executeIrrigation now
          { activate := true, duration_minutes := some d, zone_id := z } s =
        { s with is_active := true, start_time := some now,
                 duration_minutes := some d, remaining_minutes := some d,
                 current_zone := some (pyOrZone z) }) ∧
    (reactivated.is_active = true ∧
     reactivated.remaining_minutes = some 20 ∧
     reactivated.duration_minutes = some 20 ∧
     reactivated.start_time = some 200) := by
  refine ⟨?_, by rfl, by rfl, by rfl, by rfl⟩
  intro now d z s _
  rfl

/-- Witness for C7: overwriting a concrete running command. -/
theorem c7_reactivation_overwrites_witness :
    executeIrrigation 200
        { activate := true, duration_minutes := some 20, zone_id := none }
        { is_active := true, current_zone := some mainZone,
          start_time := some 100, duration_minutes := some 10,
          remaining_minutes := some 7 } =
      { is_active := true, current_zone := some mainZone,
        start_time := some 200, duration_minutes := some 20,
        remaining_minutes := some 20 } :=
  c7_reactivation_overwrites.1 200 20 none
    { is_active := true, current_zone := some mainZone,
      start_time := some 100, duration_minutes := some 10,
      remaining_minutes := some 7 } rfl

/-- C9: an activate command with `duration_minutes = None` makes the status
active with `remaining_minutes = None`, and every subsequent irrigation
tick (at any times) leaves that state completely unchanged: the countdown
never runs and auto-stop never occurs. -/
theorem c9_no_duration_never_auto_stops (now : ℤ) (z : Option String)
    (s : IrrigationStatus) :
    (activateNoDuration now z s).is_active = true ∧
    (activateNoDuration now z s).remaining_minutes = none ∧
    (∀ now2 : ℤ, irrigationTick now2 (activateNoDuration now z s) =
      activateNoDuration now z s) ∧
    (∀ ts : List ℤ, ts.foldl (fun st t2 => irrigationTick t2 st)
        (activateNoDuration now z s) = activateNoDuration now z s) := by
  have hrem : (activateNoDuration now z s).remaining_minutes = none := rfl
  have htick : ∀ now2 : ℤ,
      irrigationTick now2 (activateNoDuration now z s) =
        activateNoDuration now z s := by
    intro now2
    simp only [irrigationTick, hrem]
  refine ⟨rfl, hrem, htick, ?_⟩
  intro ts
  induction ts with
  | nil => rfl
  | cons t rest ih => simp only [List.foldl_cons, htick t, ih]

/-- C10: a deactivate command is accepted in every state: it sets
`is_active` to false, assigns `last_activation := start_time`, clears
`start_time`, `duration_minutes` and `remaining_minutes` to `None`, leaves
`current_zone`, `total_runtime_today` and `water_usage_liters` unchanged,
and when issued while `start_time` is already `None` it overwrites any
previously recorded `last_activation` with `None`. -/
theorem c10_deactivate_accepted_everywhere (now : ℤ)
    (cmd : IrrigationCommand) (s : IrrigationStatus)
    (h : cmd.activate = false) :
    executeIrrigation now cmd s =
      { s with is_active := false, last_activation := s.start_time,
               start_time := none, duration_minutes := none,
               remaining_minutes := none } ∧
    (executeIrrigation now cmd s).current_zone = s.current_zone ∧
    (executeIrrigation now cmd s).total_runtime_today =
      s.total_runtime_today ∧
    (executeIrrigation now cmd s).water_usage_liters =
      s.water_usage_liters ∧
    (s.start_time = none →
      (executeIrrigation now cmd s).last_activation = none) := by
  have he : executeIrrigation now cmd s =
      { s with is_active := false, last_activation := s.start_time,
               start_time := none, duration_minutes := none,
               remaining_minutes := none } := by
    simp only [executeIrrigation, h, Bool.false_eq_true, if_false]
  refine ⟨he, by rw [he], by rw [he], by rw [he], ?_⟩
  intro hst
  rw [he]
  simpa using hst

/-- Witness for C10: deactivating while already inactive with a recorded
`last_activation` clears it. -/
theorem c10_deactivate_accepted_everywhere_witness :
    executeIrrigation 9 deactivateCmd
        { is_active := false, current_zone := some mainZone,
          last_activation := some 3 } =
      { is_active := false, current_zone := some mainZone,
        last_activation := none } ∧
    (executeIrrigation 9 deactivateCmd
        { is_active := false, current_zone := some mainZone,
          last_activation := some 3 }).last_activation = none := by
  have h := c10_deactivate_accepted_everywhere 9 deactivateCmd
    { is_active := false, current_zone := some mainZone,
      last_activation := some 3 } rfl
  exact ⟨by rw [h.1], h.2.2.2.2 rfl⟩

/-- C2: for a channel whose threshold has `0 < min ≤ max`, a value below
`min` raises a low-direction alert whose severity is HIGH exactly when the
value is strictly below `min * 0.8` and MODERATE otherwise (a value exactly
equal to `min * 0.8` is MODERATE); symmetrically above `max` with the
`max * 1.2` boundary; concretely, with soil_moisture threshold [30, 70] a
reading of 25 yields exactly one alert, of low direction, with MODERATE
severity, and a reading of 20 yields exactly one alert with HIGH
severity. -/
theorem c2_severity_escalation_boundaries :
    (∀ (name : String) (value : ℚ) (th : Threshold) (now : ℤ)
       (idStr : String), value < th.min →
      (checkOne name value th now idStr).map AlertData.severity =
        some (if value < th.min * 0.8 then AlertSeverity.high
              else AlertSeverity.moderate) ∧
      (checkOne name value th now idStr).map AlertData.type =
        some (name ++ lowSuffix)) ∧
    (∀ (name : String) (value : ℚ) (th : Threshold) (now : ℤ)
       (idStr : String), th.min ≤ th.max → value > th.max →
      (checkOne name value th now idStr).map AlertData.severity =
        some (if value > th.max * 1.2 then AlertSeverity.high
              else AlertSeverity.moderate) ∧
      (checkOne name value th now idStr).map AlertData.type =
        some (name ++ highSuffix)) ∧
    (∀ (name : String) (th : Threshold) (now : ℤ) (idStr : String),
      0 < th.min →
      (checkOne name (th.min * 0.8) th now idStr).map AlertData.severity =
        some AlertSeverity.moderate) ∧
    (∀ (name : String) (th : Threshold) (now : ℤ) (idStr : String),
      0 < th.max → th.min ≤ th.max →
      (checkOne name (th.max * 1.2) th now idStr).map AlertData.severity =
        some AlertSeverity.moderate) ∧
    (∀ (now : ℤ) (ids : ℕ → String),
      (checkThresholds reading25 defaultThresholds now ids).map
          (fun a => (a.type, a.severity)) =
        [(nmSoilMoisture ++ lowSuffix, AlertSeverity.moderate)]) ∧
    (∀ (now : ℤ) (ids : ℕ → String),
      (checkThresholds reading20 defaultThresholds now ids).map
          (fun a => (a.type, a.severity)) =
        [(nmSoilMoisture ++ lowSuffix, AlertSeverity.high)]) := by
  refine ⟨?_, ?_, ?_, ?_, ?_, ?_⟩
  · intro name value th now idStr hlt
    rw [checkOne, if_pos hlt]
    exact ⟨rfl, rfl⟩
  · intro name value th now idStr hmm hgt
    have hnlt : ¬ value < th.min := by
      push_neg
      calc th.min ≤ th.max := hmm
        _ ≤ value := le_of_lt hgt
    rw [checkOne, if_neg hnlt, if_pos hgt]
    exact ⟨rfl, rfl⟩
  · intro name th now idStr hpos
    have hlt : th.min * 0.8 < th.min := by nlinarith
    rw [checkOne, if_pos hlt, if_neg (lt_irrefl (th.min * 0.8))]
    rfl
  · intro name th now idStr hpos hmm
    have hgt : th.max * 1.2 > th.max := by nlinarith
    have hnlt : ¬ th.max * 1.2 < th.min := by
      push_neg
      calc th.min ≤ th.max := hmm
        _ ≤ th.max * 1.2 := le_of_lt hgt
    rw [checkOne, if_neg hnlt, if_pos hgt,
      if_neg (lt_irrefl (th.max * 1.2))]
    rfl
  · intro now ids
    simp only [checkThresholds, checksList, runChecks, checkOne, reading25,
      defaultThresholds]
    norm_num
  · intro now ids
    simp only [checkThresholds, checksList, runChecks, checkOne, reading20,
      defaultThresholds]
    norm_num

/-- Witness for C2: a value of 25 against threshold [30, 70] is a MODERATE
low alert, the boundary value 30 * 0.8 is MODERATE, 20 is HIGH, and the
concrete readings produce exactly one alert each. -/
theorem c2_severity_escalation_boundaries_witness :
    (checkOne nmSoilMoisture 25 { min := 30, max := 70 } 0 underStr).map
        AlertData.severity = some AlertSeverity.moderate ∧
    (checkOne nmSoilMoisture (30 * 0.8) { min := 30, max := 70 } 0
        underStr).map AlertData.severity = some AlertSeverity.moderate ∧
    (checkOne nmSoilMoisture 20 { min := 30, max := 70 } 0 underStr).map
        AlertData.severity = some AlertSeverity.high ∧
    (checkOne nmSoilMoisture 75 { min := 30, max := 70 } 0 underStr).map
        AlertData.severity = some AlertSeverity.moderate ∧
    (checkThresholds reading25 defaultThresholds 0 idsA).map
        (fun a => (a.type, a.severity)) =
      [(nmSoilMoisture ++ lowSuffix, AlertSeverity.moderate)] ∧
    (checkThresholds reading20 defaultThresholds 0 idsA).map
        (fun a => (a.type, a.severity)) =
      [(nmSoilMoisture ++ lowSuffix, AlertSeverity.high)] := by
  have h25 := (c2_severity_escalation_boundaries.1 nmSoilMoisture 25
    { min := 30, max := 70 } 0 underStr (by norm_num)).1
  have hb := c2_severity_escalation_boundaries.2.2.1 nmSoilMoisture
    { min := 30, max := 70 } 0 underStr (by norm_num)
  have h20 := (c2_severity_escalation_boundaries.1 nmSoilMoisture 20
    { min := 30, max := 70 } 0 underStr (by norm_num)).1
  have h75 := (c2_severity_escalation_boundaries.2.1 nmSoilMoisture 75
    { min := 30, max := 70 } 0 underStr (by norm_num) (by norm_num)).1
  refine ⟨?_, hb, ?_, ?_,
    c2_severity_escalation_boundaries.2.2.2.2.1 0 idsA,
    c2_severity_escalation_boundaries.2.2.2.2.2 0 idsA⟩
  · rw [h25, if_neg (by norm_num : ¬ (25 : ℚ) < 30 * 0.8)]
  · rw [h20, if_pos (by norm_num : (20 : ℚ) < 30 * 0.8)]
  · rw [h75, if_neg (by norm_num : ¬ (75 : ℚ) > 70 * 1.2)]

/-- C4 counterexample: two evaluations of the same reading against the same
thresholds yield different alert records when the drawn uuid or the
`utcnow()` call differ — the `id` and `timestamp` fields are not functions
of (reading, thresholds). -/
theorem c4_counterexample :
    checkThresholds reading25 defaultThresholds 0 idsA ≠
      checkThresholds reading25 defaultThresholds 0 idsB ∧
    checkThresholds reading25 defaultThresholds 0 idsA ≠
      checkThresholds reading25 defaultThresholds 1 idsA := by
  have hA : (checkThresholds reading25 defaultThresholds 0 idsA).map
      AlertData.id = [underStr] := by
    simp only [checkThresholds, checksList, runChecks, checkOne, reading25,
      defaultThresholds, idsA]
    norm_num
  have hB : (checkThresholds reading25 defaultThresholds 0 idsB).map
      AlertData.id = [spaceStr] := by
    simp only [checkThresholds, checksList, runChecks, checkOne, reading25,
      defaultThresholds, idsB]
    norm_num
  have hT0 : (checkThresholds reading25 defaultThresholds 0 idsA).map
      AlertData.timestamp = [0] := by
    simp only [checkThresholds, checksList, runChecks, checkOne, reading25,
      defaultThresholds]
    norm_num
  have hT1 : (checkThresholds reading25 defaultThresholds 1 idsA).map
      AlertData.timestamp = [1] := by
    simp only [checkThresholds, checksList, runChecks, checkOne, reading25,
      defaultThresholds]
    norm_num
  constructor
  · intro h
    have hmap := congrArg (List.map AlertData.id) h
    rw [hA, hB] at hmap
    exact absurd hmap (by decide)
  · intro h
    have hmap := congrArg (List.map AlertData.timestamp) h
    rw [hT0, hT1] at hmap
    exact absurd hmap (by decide)

/-- C4 (amended): threshold evaluation is deterministic given (reading,
thresholds, evaluation time, id draws); everything except the freshly drawn
`id` and the `utcnow()` `timestamp` — channels, directions, severities,
titles, messages, values and threshold bounds — is a function of (reading,
thresholds) alone. -/
theorem c4_evaluation_core_deterministic (r : SensorReading)
    (t : ThresholdSettings) (now1 now2 : ℤ) (ids1 ids2 : ℕ → String) :
    (checkThresholds r t now1 ids1).map coreOf =
      (checkThresholds r t now2 ids2).map coreOf :=
  runChecks_map_core (checksList r t) now1 ids1 0 now2 ids2 0

/-- C5 counterexample: one iteration of the 300-second alert-sweep loop
(`_alert_monitoring_loop`) does not remove an alert that is 25 hours old —
older than a 24-hour retention window — because its cutoff is 7 days. -/
theorem c5_counterexample :
    alert25h.timestamp < 0 - day ∧
    alertMonitoringSweep 0 [alert25h] = [alert25h] := by
  constructor
  · decide
  · decide

/-- C5 (amended): one iteration of the periodic 300-second alert-sweep task
removes from the ledger exactly the alerts older than a 7-day retention
window (it keeps an alert iff its timestamp is strictly newer than
`now - 7 days`); the 24-hour retention filter runs instead in the
threshold-check step of the 30-second reading loop, which keeps an old
alert iff its timestamp is strictly newer than `now - 24h` and then appends
the newly generated alerts. -/
theorem c5_sweep_loop_retention (now : ℤ) (alerts cur : List AlertData)
    (a : AlertData) :
    (a ∈ alertMonitoringSweep now alerts ↔
      a ∈ alerts ∧ now - week < a.timestamp) ∧
    (a ∈ updateAlertLedger now alerts cur ↔
      (a ∈ alerts ∧ now - day < a.timestamp) ∨ a ∈ cur) := by
  constructor
  · simp [alertMonitoringSweep, sweepAlerts, List.mem_filter]
  · simp [updateAlertLedger, sweepAlerts, List.mem_filter, List.mem_append]

/-- C6 counterexample: an unresolved alert created exactly 24 hours before
the sweep time is *not* older than `now - 24h`, yet it is absent from the
active alerts after the 24-hour retention filter, because the filter keeps
only timestamps strictly greater than the cutoff. -/
theorem c6_counterexample :
    alertEq24h.resolved = false ∧
    ¬ alertEq24h.timestamp < 0 - day ∧
    getActiveAlerts (updateAlertLedger 0 [alertEq24h] []) = [] := by
  refine ⟨rfl, by decide, by decide⟩

/-- C6 (amended): after a sweep of the ledger with the 24-hour retention
window, every alert whose timestamp is at most `now - 24h` (strictly older,
or exactly 24 hours old) is absent from the active alerts, and every
unresolved alert whose timestamp is strictly newer than `now - 24h` is
still present. -/
theorem c6_sweep_24h_boundary :
    (∀ (now : ℤ) (alerts : List AlertData) (a : AlertData),
      a.timestamp ≤ now - day →
      a ∉ getActiveAlerts (sweepAlerts (now - day) alerts)) ∧
    (∀ (now : ℤ) (alerts : List AlertData) (a : AlertData),
      a ∈ alerts → a.resolved = false → now - day < a.timestamp →
      a ∈ getActiveAlerts (sweepAlerts (now - day) alerts)) := by
  constructor
  · intro now alerts a hold hmem
    simp only [getActiveAlerts, sweepAlerts, List.mem_filter,
      decide_eq_true_eq] at hmem
    omega
  · intro now alerts a hmem hres hnew
    simp [getActiveAlerts, sweepAlerts, List.mem_filter, hmem, hres, hnew]

/-- Witness for C6: with the ledger holding the 25-hour-old and the
23-hour-old alerts, a 24-hour sweep at time 0 drops the former and keeps
the latter among the active alerts. -/
theorem c6_sweep_24h_boundary_witness :
    alert25h ∉ getActiveAlerts (sweepAlerts (0 - day) [alert25h, alert23h]) ∧
    alert23h ∈ getActiveAlerts (sweepAlerts (0 - day) [alert25h, alert23h]) :=
  ⟨c6_sweep_24h_boundary.1 0 [alert25h, alert23h] alert25h (by decide),
   c6_sweep_24h_boundary.2 0 [alert25h, alert23h] alert23h (by decide)
     (by decide) (by decide)⟩

end SmartApp
